import Mathlib

/-!
Verification of the n-ups imposition engine.

The development shallowly embeds the layout calculator
(`computePrintedArea` / `computeLayout`), the geometry helpers, the
cut-mark renderer and the n-up export orchestrator of the repository,
and proves the spec's claims about them.

Layout-side numeric inputs are JavaScript numbers: a finite rational,
one of the two infinities, or NaN.  Arithmetic follows IEEE-754
semantics on those classes (exact rational arithmetic in the finite
case; floating-point rounding is idealized away).
-/

namespace Layout

/-- A JavaScript number: finite value, +Infinity, -Infinity or NaN. -/
inductive JNum where
  | fin : ℚ → JNum
  | inf : JNum
  | ninf : JNum
  | nan : JNum
deriving DecidableEq, Repr

/-- IEEE negation. -/
def JNum.neg : JNum → JNum
  | .fin q => .fin (-q)
  | .inf => .ninf
  | .ninf => .inf
  | .nan => .nan

/-- IEEE addition on number classes (finite case exact). -/
def JNum.add : JNum → JNum → JNum
  | .nan, _ => .nan
  | _, .nan => .nan
  | .inf, .ninf => .nan
  | .ninf, .inf => .nan
  | .inf, _ => .inf
  | _, .inf => .inf
  | .ninf, _ => .ninf
  | _, .ninf => .ninf
  | .fin a, .fin b => .fin (a + b)

/-- IEEE subtraction, `a - b = a + (-b)`. -/
def JNum.sub (a b : JNum) : JNum := a.add b.neg

/-- The margin object of `PaperConfig` (types file): top/right/bottom/left in mm. -/
structure Margin where
  top : JNum
  right : JNum
  bottom : JNum
  left : JNum
deriving DecidableEq, Repr

/-- The gap object of `PaperConfig`: horizontal/vertical inter-item gaps in mm. -/
structure Gap where
  horizontal : JNum
  vertical : JNum
deriving DecidableEq, Repr

/-- `PaperConfig` from the repository's types file: width/height, margin, gap,
optional duplex flag, optional cut-mark length. -/
structure PaperConfig where
  width : JNum
  height : JNum
  margin : Margin
  gap : Gap
  duplex : Option Bool := none
  cutMarkLengthMm : Option JNum := none
deriving DecidableEq, Repr

/-- `ImageMargin` from the types file. -/
structure ImageMargin where
  top : JNum
  right : JNum
  bottom : JNum
  left : JNum
deriving DecidableEq, Repr

/-- `ImageConfig` from the types file: trim width/height plus per-image margin.
The margin is required by the type, but `computeLayout` guards it with `?? 0`,
so it is embedded as optional. -/
structure ImageConfig where
  width : JNum
  height : JNum
  margin : Option ImageMargin := none
deriving DecidableEq, Repr

/-- `clamp0` of the layout utilities:
`Number.isFinite(n) && n > 0 ? n : 0`.
Its result is always a finite non-negative number, so the embedding gives it
the rational codomain directly. -/
def clamp0 (n : JNum) : ℚ :=
  match n with
  | .fin q => if q > 0 then q else 0
  | _ => 0

/-- Result record of `computePrintedArea`. -/
structure PrintedArea where
  printedW : ℚ
  printedH : ℚ
  printedArea : ℚ
deriving DecidableEq, Repr

/-- `computePrintedArea(paper)`: printed (placeable) area after margins and
crop marks, in mm.
`cut = clamp0(cutMarkLengthMm ?? 0)`,
`printedW = clamp0(width - margin.left - margin.right - 2*cut)`,
`printedH = clamp0(height - margin.top - margin.bottom - 2*cut)`. -/
def computePrintedArea (paper : PaperConfig) : PrintedArea :=
  let cut : ℚ := clamp0 (paper.cutMarkLengthMm.getD (.fin 0))
  let printedW : ℚ :=
    clamp0 (((paper.width.sub paper.margin.left).sub paper.margin.right).sub
      (.fin (2 * cut)))
  let printedH : ℚ :=
    clamp0 (((paper.height.sub paper.margin.top).sub paper.margin.bottom).sub
      (.fin (2 * cut)))
  { printedW := printedW, printedH := printedH, printedArea := printedW * printedH }

/-- Result record of `computeLayout`. Counts are integer-valued JS numbers. -/
structure LayoutResult where
  rows : ℤ
  cols : ℤ
  items : ℤ
  tagW : ℚ
  tagH : ℚ
  printedW : ℚ
  printedH : ℚ
deriving DecidableEq, Repr

/-- `computeLayout(paper, image)` of the layout utilities:
footprint `tagW/tagH = clamp0(size + clamp0(gutters))`, gaps clamped,
`cols = tagW <= 0 ? 0 : Math.max(0, Math.floor((printedW+gapX)/(tagW+gapX)))`
and symmetrically for rows; `items = rows * cols`. -/
def computeLayout (paper : PaperConfig) (image : ImageConfig) : LayoutResult :=
  let pa := computePrintedArea paper
  let m := image.margin.getD { top := .fin 0, right := .fin 0, bottom := .fin 0, left := .fin 0 }
  let tagW : ℚ := clamp0 ((image.width.add (.fin (clamp0 m.left))).add (.fin (clamp0 m.right)))
  let tagH : ℚ := clamp0 ((image.height.add (.fin (clamp0 m.top))).add (.fin (clamp0 m.bottom)))
  let gapX : ℚ := clamp0 paper.gap.horizontal
  let gapY : ℚ := clamp0 paper.gap.vertical
  let cols : ℤ := if tagW ≤ 0 then 0 else max 0 ⌊(pa.printedW + gapX) / (tagW + gapX)⌋
  let rows : ℤ := if tagH ≤ 0 then 0 else max 0 ⌊(pa.printedH + gapY) / (tagH + gapY)⌋
  { rows := rows, cols := cols, items := rows * cols,
    tagW := tagW, tagH := tagH,
    printedW := pa.printedW, printedH := pa.printedH }

/-- The version of the layout computation the spec's safety sentence
describes: every raw configuration value individually clamped to 0 before
any arithmetic.  Written from the claim's words, to be compared with
`computeLayout` (which only clamps the cut length, the gaps, the gutters
and the aggregate results). -/
def computeLayoutPreClamped (paper : PaperConfig) (image : ImageConfig) : LayoutResult :=
  let cut : ℚ := clamp0 (paper.cutMarkLengthMm.getD (.fin 0))
  let printedW : ℚ :=
    max 0 (clamp0 paper.width - clamp0 paper.margin.left - clamp0 paper.margin.right - 2 * cut)
  let printedH : ℚ :=
    max 0 (clamp0 paper.height - clamp0 paper.margin.top - clamp0 paper.margin.bottom - 2 * cut)
  let m := image.margin.getD { top := .fin 0, right := .fin 0, bottom := .fin 0, left := .fin 0 }
  let tagW : ℚ := clamp0 image.width + clamp0 m.left + clamp0 m.right
  let tagH : ℚ := clamp0 image.height + clamp0 m.top + clamp0 m.bottom
  let gapX : ℚ := clamp0 paper.gap.horizontal
  let gapY : ℚ := clamp0 paper.gap.vertical
  let cols : ℤ := if tagW ≤ 0 then 0 else max 0 ⌊(printedW + gapX) / (tagW + gapX)⌋
  let rows : ℤ := if tagH ≤ 0 then 0 else max 0 ⌊(printedH + gapY) / (tagH + gapY)⌋
  { rows := rows, cols := cols, items := rows * cols,
    tagW := tagW, tagH := tagH, printedW := printedW, printedH := printedH }

end Layout

namespace ExportNUp

/-!
Shallow embedding of src/lib/exportNUp.ts.

Numbers on this side are plain rationals: the export path does no
finiteness clamping, and no claim about it concerns non-finite inputs.
A pdf-lib document is modelled as its list of pages; a page as its size
plus the ordered list of content-stream operators pushed onto it.  A
source PDF is modelled as the list of its pages' native sizes, which is
all that `embedPdf` and `drawPage` observe here.  Fallible steps return
`Except String`, mirroring thrown errors.
-/

/-- `MarginMm` of exportNUp.ts. -/
structure MarginMm where
  top : ℚ
  right : ℚ
  bottom : ℚ
  left : ℚ
deriving DecidableEq, Repr

/-- `PaperConfig` of exportNUp.ts (distinct from the layout-side type). -/
structure PaperConfig where
  widthMm : ℚ
  heightMm : ℚ
  marginMm : MarginMm
deriving DecidableEq, Repr

/-- `SizeMm` of exportNUp.ts. -/
structure SizeMm where
  width : ℚ
  height : ℚ
deriving DecidableEq, Repr

/-- `BleedMm` of exportNUp.ts. -/
structure BleedMm where
  top : ℚ
  right : ℚ
  bottom : ℚ
  left : ℚ
deriving DecidableEq, Repr

/-- `SlotConfig` of exportNUp.ts: trim size, bleed treated as margin around
trim, optional default rotation.  Rotation values are embedded as rationals;
the TS type restricts them to 0/90/180/270 but `clampRotation` re-checks at
runtime, so the embedding keeps the wider type. -/
structure SlotConfig where
  trimSizeMm : SizeMm
  bleedMm : BleedMm
  defaultRotateDeg : Option ℚ := none
deriving DecidableEq, Repr

/-- `LayoutConfig` of exportNUp.ts. -/
structure LayoutConfig where
  rows : ℕ
  cols : ℕ
  auto : Bool
deriving DecidableEq, Repr

/-- `MarkConfig` of exportNUp.ts. -/
structure MarkConfig where
  cutLenMm : ℚ
  cutStrokePt : ℚ
  offsetMm : Option ℚ := none
deriving DecidableEq, Repr

/-- `ColorConfig` of exportNUp.ts (markColor is the literal "K100"). -/
structure ColorConfig where
  keepCMYK : Bool
deriving DecidableEq, Repr

/-- Native size, in points, of one page of a source PDF. -/
structure SrcPage where
  width : ℚ
  height : ℚ
deriving DecidableEq, Repr

/-- A source PDF, as `embedPdf` observes it: its pages' native sizes. -/
def SrcPdf : Type := List SrcPage
deriving instance DecidableEq for SrcPdf

/-- `SlotInput` of exportNUp.ts: source bytes, page index, optional rotation. -/
structure SlotInput where
  pdfBytes : SrcPdf
  pageIndex : ℕ
  rotateDeg : Option ℚ := none
deriving DecidableEq

/-- `MetaInfo` of exportNUp.ts. -/
structure MetaInfo where
  date : Option String := none
  customerName : Option String := none
  description : Option String := none
  displayMeta : Option Bool := none
deriving DecidableEq

/-- `NUpPlan` of exportNUp.ts. -/
structure NUpPlan where
  paper : PaperConfig
  slot : SlotConfig
  layout : LayoutConfig
  marks : MarkConfig
  color : ColorConfig
  slots : List (Option SlotInput)
  meta : Option MetaInfo := none
deriving DecidableEq

/-- `MM_TO_PT = 72 / 25.4`. -/
def MM_TO_PT : ℚ := 72 / 25.4

/-- `mmToPt(mm) = mm * MM_TO_PT`. -/
def mmToPt (mm : ℚ) : ℚ := mm * MM_TO_PT

/-- `PtRect` of exportNUp.ts. -/
structure PtRect where
  x : ℚ
  y : ℚ
  width : ℚ
  height : ℚ
deriving DecidableEq, Repr

/-- A CMYK color as passed to `setStrokingColor` / `setFillingColor`. -/
structure Cmyk where
  c : ℚ
  m : ℚ
  y : ℚ
  k : ℚ
deriving DecidableEq, Repr

/-- A pdf-lib content-stream operator, as exportNUp.ts pushes them.
`rotateRadians` is recorded by the degree value `d` it was called for
(the source computes the radian value `π·d/180` from it). -/
inductive Op where
  | pushGraphicsState : Op
  | popGraphicsState : Op
  | setLineCap : ℤ → Op
  | setLineJoin : ℤ → Op
  | setLineWidth : ℚ → Op
  | setStrokingColor : Cmyk → Op
  | setFillingColor : Cmyk → Op
  | moveTo : ℚ → ℚ → Op
  | lineTo : ℚ → ℚ → Op
  | stroke : Op
  | translate : ℚ → ℚ → Op
  | rotateRadiansOfDeg : ℚ → Op
  | drawPage : ℚ → ℚ → ℚ → ℚ → Op
  | drawText : String → ℚ → ℚ → ℚ → Op
deriving DecidableEq

/-- One page of the output document: its size and its operator stream. -/
structure PageM where
  width : ℚ
  height : ℚ
  ops : List Op
deriving DecidableEq

/-- The output document: optional title and its pages. -/
structure Document where
  title : Option String := none
  pages : List PageM
deriving DecidableEq

/-- `clampRotation(rot)`: `rot === 90 || rot === 180 || rot === 270 ? rot : 0`;
`none` is the `undefined` argument. -/
def clampRotation (rot : Option ℚ) : ℚ :=
  match rot with
  | some r => if r = 90 ∨ r = 180 ∨ r = 270 then r else 0
  | none => 0

/-- `ptRectFromTrimAndBleed(xTrim, yTrim, trimPt, bleedPt)`: the trim
rectangle and the outer rectangle expanded by the per-side bleed. -/
def ptRectFromTrimAndBleed (xTrim yTrim : ℚ) (trimPt : SizeMm)
    (bleedPt : BleedMm) : PtRect × PtRect :=
  let trim : PtRect := { x := xTrim, y := yTrim, width := trimPt.width, height := trimPt.height }
  let outer : PtRect :=
    { x := xTrim - bleedPt.left,
      y := yTrim - bleedPt.bottom,
      width := trimPt.width + bleedPt.left + bleedPt.right,
      height := trimPt.height + bleedPt.top + bleedPt.bottom }
  (trim, outer)

/-- The unique sorted vertical trim boundaries of `drawCutMarksFromTrimRects`:
`Array.from(new Set(trims.flatMap(r => [r.x, r.x + r.width]))).sort((a,b) => a-b)`.
The numeric ascending sort is modelled by insertion sort, which agrees with
any correct sort on the deduplicated list. -/
def uniqueXs (trims : List PtRect) : List ℚ :=
  List.insertionSort (fun a b => a ≤ b) (trims.flatMap fun r => [r.x, r.x + r.width]).dedup

/-- The unique sorted horizontal trim boundaries of `drawCutMarksFromTrimRects`. -/
def uniqueYs (trims : List PtRect) : List ℚ :=
  List.insertionSort (fun a b => a ≤ b) (trims.flatMap fun r => [r.y, r.y + r.height]).dedup

/-- One `draw(x1,y1,x2,y2)` call of the cut-mark renderer:
`moveTo(x1,y1), lineTo(x2,y2), stroke()`. -/
def drawSeg (x1 y1 x2 y2 : ℚ) : List Op :=
  [Op.moveTo x1 y1, Op.lineTo x2 y2, Op.stroke]

/-- The tick segments of `drawCutMarksFromTrimRects`: a bottom and a top
tick at every unique vertical boundary, then a left and a right tick at
every unique horizontal boundary. -/
def tickOps (trims : List PtRect) (mark : MarkConfig) (perimeterBleedPt : Option BleedMm) :
    List Op :=
  let cutLenPt := mmToPt mark.cutLenMm
  let offsetPt := mmToPt (mark.offsetMm.getD 0)
  let xs := uniqueXs trims
  let ys := uniqueYs trims
  let left := xs.headD 0
  let right := xs.getLastD 0
  let bottom := ys.headD 0
  let top := ys.getLastD 0
  let offL := (match perimeterBleedPt with | some b => b.left | none => 0) + offsetPt
  let offR := (match perimeterBleedPt with | some b => b.right | none => 0) + offsetPt
  let offT := (match perimeterBleedPt with | some b => b.top | none => 0) + offsetPt
  let offB := (match perimeterBleedPt with | some b => b.bottom | none => 0) + offsetPt
  (xs.flatMap fun x =>
    drawSeg x (bottom - offB - cutLenPt) x (bottom - offB) ++
    drawSeg x (top + offT) x (top + offT + cutLenPt)) ++
  (ys.flatMap fun y =>
    drawSeg (left - offL - cutLenPt) y (left - offL) y ++
    drawSeg (right + offR) y (right + offR + cutLenPt) y)

/-- `drawCutMarksFromTrimRects(page, trims, mark, perimeterBleedPt)`: the
operators it pushes onto the page.  Empty input pushes nothing; otherwise a
graphics state is pushed, cap/join/width/K100 stroking color set, every tick
drawn, and the state popped. -/
def drawCutMarksFromTrimRects (trims : List PtRect) (mark : MarkConfig)
    (perimeterBleedPt : Option BleedMm) : List Op :=
  if trims.isEmpty then []
  else
    Op.pushGraphicsState ::
    Op.setLineCap 0 ::
    Op.setLineJoin 0 ::
    Op.setLineWidth mark.cutStrokePt ::
    Op.setStrokingColor { c := 0, m := 0, y := 0, k := 1 } ::
    tickOps trims mark perimeterBleedPt ++ [Op.popGraphicsState]

/-- `placePdfPageNoScale(doc, page, slot, outer, rotateDeg)`: embeds the
requested page (error when the index does not exist), then pushes
push/translate-to-center/rotate, draws the page at its native size at
`(-srcW/2, -srcH/2)`, and pops. -/
def placePdfPageNoScale (slot : SlotInput) (outer : PtRect) (rotateDeg : ℚ) :
    Except String (List Op) :=
  match slot.pdfBytes.get? slot.pageIndex with
  | none => .error ("Invalid pageIndex: " ++ toString slot.pageIndex)
  | some embedded =>
    let srcW := embedded.width
    let srcH := embedded.height
    let cx := outer.x + outer.width / 2
    let cy := outer.y + outer.height / 2
    .ok [Op.pushGraphicsState,
         Op.translate cx cy,
         Op.rotateRadiansOfDeg rotateDeg,
         Op.drawPage srcW srcH (-(srcW / 2)) (-(srcH / 2)),
         Op.popGraphicsState]

/-- The effective rotation exportNUp.ts computes per cell:
`clampRotation(slotData.rotateDeg ?? slot.defaultRotateDeg ?? 0)`. -/
def effRotation (cellRot defRot : Option ℚ) : ℚ :=
  clampRotation (some ((cellRot.orElse fun _ => defRot).getD 0))

/-- Bleed of the slot config converted to points. -/
def bleedPtOf (plan : NUpPlan) : BleedMm :=
  { top := mmToPt plan.slot.bleedMm.top,
    right := mmToPt plan.slot.bleedMm.right,
    bottom := mmToPt plan.slot.bleedMm.bottom,
    left := mmToPt plan.slot.bleedMm.left }

/-- Outer cell width `outerW = trimWPt + bleed.left + bleed.right`. -/
def outerW (plan : NUpPlan) : ℚ :=
  mmToPt plan.slot.trimSizeMm.width + (bleedPtOf plan).left + (bleedPtOf plan).right

/-- Outer cell height `outerH = trimHPt + bleed.top + bleed.bottom`. -/
def outerH (plan : NUpPlan) : ℚ :=
  mmToPt plan.slot.trimSizeMm.height + (bleedPtOf plan).top + (bleedPtOf plan).bottom

/-- `gridStartX = xOrigin + (usableW - gridTotalW) / 2`: the grid is
horizontally centered in the area between the left and right margins. -/
def gridStartX (plan : NUpPlan) : ℚ :=
  let pageWidthPt := mmToPt plan.paper.widthMm
  let xOrigin := mmToPt plan.paper.marginMm.left
  let usableW := pageWidthPt - mmToPt (plan.paper.marginMm.left + plan.paper.marginMm.right)
  let gridTotalW := outerW plan * plan.layout.cols
  xOrigin + (usableW - gridTotalW) / 2

/-- `gridStartY = yOrigin + mmToPt(marks.cutLenMm) + bleedPt.bottom`. -/
def gridStartY (plan : NUpPlan) : ℚ :=
  mmToPt plan.paper.marginMm.bottom + mmToPt plan.marks.cutLenMm + (bleedPtOf plan).bottom

/-- Trim x of the cell in column `c`: `gridStartX + c*outerW + bleed.left`. -/
def xTrimOf (plan : NUpPlan) (c : ℕ) : ℚ :=
  gridStartX plan + c * outerW plan + (bleedPtOf plan).left

/-- Trim y of the cell in row `r`: `gridStartY + r*outerH`. -/
def yTrimOf (plan : NUpPlan) (r : ℕ) : ℚ :=
  gridStartY plan + r * outerH plan

/-- The trim/outer rectangle pair of cell `i` (row-major, `r = i / cols`,
`c = i % cols`, matching the nested loops' running `cell` counter). -/
def cellRect (plan : NUpPlan) (i : ℕ) : PtRect × PtRect :=
  ptRectFromTrimAndBleed (xTrimOf plan (i % plan.layout.cols))
    (yTrimOf plan (i / plan.layout.cols))
    { width := mmToPt plan.slot.trimSizeMm.width, height := mmToPt plan.slot.trimSizeMm.height }
    (bleedPtOf plan)

/-- `allTrimRects` as collected by the cell loop. -/
def allTrimRects (plan : NUpPlan) : List PtRect :=
  (List.range (plan.layout.rows * plan.layout.cols)).map fun i => (cellRect plan i).1

/-- The operators one cell contributes: nothing for an empty slot, the
placement operators (or an embed error) for an assigned one. -/
def cellOps (plan : NUpPlan) (i : ℕ) : Except String (List Op) :=
  match plan.slots.getD i none with
  | none => .ok []
  | some slotData =>
    placePdfPageNoScale slotData (cellRect plan i).2
      (effRotation slotData.rotateDeg plan.slot.defaultRotateDeg)

/-- The sequential, awaited cell loop: operators of the listed cells in
order, stopping at the first error. -/
def runCells (plan : NUpPlan) : List ℕ → Except String (List Op)
  | [] => .ok []
  | i :: rest =>
    match cellOps plan i with
    | .error e => .error e
    | .ok ops =>
      match runCells plan rest with
      | .error e => .error e
      | .ok more => .ok (ops ++ more)

/-- `metaText = [date, customerName, description].filter(Boolean).join(" — ")`. -/
def metaTextOf (meta : MetaInfo) : String :=
  String.intercalate " — "
    (([meta.date, meta.customerName, meta.description].filterMap id).filter fun s => s ≠ "")

/-- The metadata operators: a filled text line at the margin origin when
`displayMeta` is set and the joined text is non-empty. -/
def metaOpsOf (plan : NUpPlan) : List Op :=
  match plan.meta with
  | none => []
  | some meta =>
    let metaText := metaTextOf meta
    if metaText ≠ "" ∧ meta.displayMeta.getD false then
      [Op.pushGraphicsState,
       Op.setFillingColor { c := 0, m := 0, y := 0, k := 1 },
       Op.drawText metaText (mmToPt plan.paper.marginMm.left) (mmToPt plan.paper.marginMm.bottom) 10,
       Op.popGraphicsState]
    else []

/-- The document title: `if (meta?.customerName) doc.setTitle(...)` (truthy
check, so the empty string sets no title). -/
def titleOf (plan : NUpPlan) : Option String :=
  match plan.meta.bind fun m => m.customerName with
  | some s => if s = "" then none else some s
  | none => none

/-- `exportNUp(plan)`: validates the slot count, then produces the single
paper-sized page holding the cell placements, the cut marks drawn once
against every collected trim rectangle, and the optional metadata line.
An invalid plan or a failed embed yields the thrown error instead. -/
def exportNUp (plan : NUpPlan) : Except String Document :=
  let cellCount := plan.layout.rows * plan.layout.cols
  if plan.slots.length ≠ cellCount then
    .error ("slots length (" ++ toString plan.slots.length ++
      ") must equal rows*cols (" ++ toString cellCount ++ ").")
  else
    match runCells plan (List.range cellCount) with
    | .error e => .error e
    | .ok placedOps =>
      let markOps := drawCutMarksFromTrimRects (allTrimRects plan) plan.marks (some (bleedPtOf plan))
      .ok { title := titleOf plan,
            pages := [{ width := mmToPt plan.paper.widthMm,
                        height := mmToPt plan.paper.heightMm,
                        ops := placedOps ++ markOps ++ metaOpsOf plan }] }

/-- The page-concatenation loop of `buildCurrentNUpBytes`
(ItemsHandler.tsx): every page of every part copied, in order, into one
new document. -/
def mergeDocs (parts : List Document) : Document :=
  { title := none, pages := parts.flatMap fun d => d.pages }

/-- `buildCurrentNUpBytes` (ItemsHandler.tsx), below the store-marshalling:
export the front plan and, when duplex, the back plan; null when neither
exists; a single part is returned as-is; two parts are merged front-first. -/
def buildCurrentNUpBytes (frontPlan backPlan : Option NUpPlan) :
    Except String (Option Document) :=
  match frontPlan, backPlan with
  | none, none => .ok none
  | some f, none =>
    match exportNUp f with
    | .error e => .error e
    | .ok d => .ok (some d)
  | none, some b =>
    match exportNUp b with
    | .error e => .error e
    | .ok d => .ok (some d)
  | some f, some b =>
    match exportNUp f with
    | .error e => .error e
    | .ok df =>
      match exportNUp b with
      | .error e => .error e
      | .ok db => .ok (some (mergeDocs [df, db]))

/-- Rotation by a multiple of 90 degrees about the origin, the exact
linear map `rotateRadians(π·d/180)` denotes for d = 0/90/180/270. -/
def applyRot (deg : ℚ) (p : ℚ × ℚ) : ℚ × ℚ :=
  if deg = 90 then (-p.2, p.1)
  else if deg = 180 then (-p.1, -p.2)
  else if deg = 270 then (p.2, -p.1)
  else p

/-- Where the center of the box drawn by `drawPage w h` at local origin
`(x, y)` lands on the destination page, under the CTM
`translate(cx, cy); rotate(deg)` that `placePdfPageNoScale` installs. -/
def placedCenter (cx cy deg w h x y : ℚ) : ℚ × ℚ :=
  let posn := applyRot deg (x + w / 2, y + h / 2)
  (cx + posn.1, cy + posn.2)

/-- True of the operators a cut-mark body may contain: path construction
and painting only, no graphics-state changes. -/
def Op.isPathOp : Op → Bool
  | .moveTo _ _ => true
  | .lineTo _ _ => true
  | .stroke => true
  | _ => false

/-- Whether a fallible step threw (landed in the error branch). -/
def errored {α : Type} (e : Except String α) : Bool :=
  match e with
  | .error _ => true
  | .ok _ => false

end ExportNUp

/-!
Concrete configurations used to ground the general theorems.
-/

/-- Scenario A paper: 210x297 mm, all margins 5 mm, cut-mark length 6 mm,
zero gaps. -/
def scenarioAPaper : Layout.PaperConfig :=
  { width := .fin 210, height := .fin 297,
    margin := { top := .fin 5, right := .fin 5, bottom := .fin 5, left := .fin 5 },
    gap := { horizontal := .fin 0, vertical := .fin 0 },
    cutMarkLengthMm := some (.fin 6) }

/-- Scenario A item: 57x92 mm with zero gutter. -/
def scenarioAImage : Layout.ImageConfig :=
  { width := .fin 57, height := .fin 92,
    margin := some { top := .fin 0, right := .fin 0, bottom := .fin 0, left := .fin 0 } }

/-- A degenerate item: zero-width footprint, and taller than Scenario A's
printed area. -/
def degenerateImage : Layout.ImageConfig :=
  { width := .fin 0, height := .fin 1000,
    margin := some { top := .fin 0, right := .fin 0, bottom := .fin 0, left := .fin 0 } }

/-- Scenario A paper with the left margin replaced by -100 mm. -/
def negMarginPaper : Layout.PaperConfig :=
  { width := .fin 210, height := .fin 297,
    margin := { top := .fin 5, right := .fin 5, bottom := .fin 5, left := .fin (-100) },
    gap := { horizontal := .fin 0, vertical := .fin 0 },
    cutMarkLengthMm := some (.fin 6) }

/-- A 1x2 export plan with 2 mm bleed on every side of a 10x10 mm trim. -/
def bleedPlan : ExportNUp.NUpPlan :=
  { paper := { widthMm := 100, heightMm := 100,
               marginMm := { top := 0, right := 0, bottom := 0, left := 0 } },
    slot := { trimSizeMm := { width := 10, height := 10 },
              bleedMm := { top := 2, right := 2, bottom := 2, left := 2 } },
    layout := { rows := 1, cols := 2, auto := false },
    marks := { cutLenMm := 5, cutStrokePt := 1 },
    color := { keepCMYK := true },
    slots := [none, none] }

/-- A 2x3 export plan with zero bleed around a 10x10 mm trim. -/
def abutPlan : ExportNUp.NUpPlan :=
  { paper := { widthMm := 100, heightMm := 100,
               marginMm := { top := 0, right := 0, bottom := 0, left := 0 } },
    slot := { trimSizeMm := { width := 10, height := 10 },
              bleedMm := { top := 0, right := 0, bottom := 0, left := 0 } },
    layout := { rows := 2, cols := 3, auto := false },
    marks := { cutLenMm := 5, cutStrokePt := 1 },
    color := { keepCMYK := true },
    slots := [none, none, none, none, none, none] }

/-- A 1x1 plan whose slots array is empty: the slot count is wrong. -/
def mismatchPlan : ExportNUp.NUpPlan :=
  { paper := { widthMm := 100, heightMm := 100,
               marginMm := { top := 0, right := 0, bottom := 0, left := 0 } },
    slot := { trimSizeMm := { width := 10, height := 10 },
              bleedMm := { top := 0, right := 0, bottom := 0, left := 0 } },
    layout := { rows := 1, cols := 1, auto := false },
    marks := { cutLenMm := 5, cutStrokePt := 1 },
    color := { keepCMYK := true },
    slots := [] }

/-- A slot whose source PDF has no pages, so page index 0 does not exist. -/
def emptySourceSlot : ExportNUp.SlotInput :=
  { pdfBytes := [], pageIndex := 0 }

/-- A 1x1 plan whose single slot requests a page its source does not have. -/
def badIndexPlan : ExportNUp.NUpPlan :=
  { paper := { widthMm := 100, heightMm := 100,
               marginMm := { top := 0, right := 0, bottom := 0, left := 0 } },
    slot := { trimSizeMm := { width := 10, height := 10 },
              bleedMm := { top := 0, right := 0, bottom := 0, left := 0 } },
    layout := { rows := 1, cols := 1, auto := false },
    marks := { cutLenMm := 5, cutStrokePt := 1 },
    color := { keepCMYK := true },
    slots := [some emptySourceSlot] }

/-- A one-page source whose single page is 100x50 pt. -/
def sampleSlot : ExportNUp.SlotInput :=
  { pdfBytes := [{ width := 100, height := 50 }], pageIndex := 0 }

/-- A sample outer cell rectangle. -/
def sampleOuter : ExportNUp.PtRect := { x := 10, y := 20, width := 30, height := 40 }

/-- A 0x0 plan (empty grid): its export is a single empty page. -/
def emptyGridPlanFront : ExportNUp.NUpPlan :=
  { paper := { widthMm := 100, heightMm := 100,
               marginMm := { top := 0, right := 0, bottom := 0, left := 0 } },
    slot := { trimSizeMm := { width := 10, height := 10 },
              bleedMm := { top := 0, right := 0, bottom := 0, left := 0 } },
    layout := { rows := 0, cols := 0, auto := false },
    marks := { cutLenMm := 5, cutStrokePt := 1 },
    color := { keepCMYK := true },
    slots := [] }

/-- A second 0x0 plan on a different paper size, used as a back side. -/
def emptyGridPlanBack : ExportNUp.NUpPlan :=
  { paper := { widthMm := 200, heightMm := 150,
               marginMm := { top := 0, right := 0, bottom := 0, left := 0 } },
    slot := { trimSizeMm := { width := 10, height := 10 },
              bleedMm := { top := 0, right := 0, bottom := 0, left := 0 } },
    layout := { rows := 0, cols := 0, auto := false },
    marks := { cutLenMm := 5, cutStrokePt := 1 },
    color := { keepCMYK := true },
    slots := [] }

/-- The document the front 0x0 plan exports to. -/
def emptyGridDocFront : ExportNUp.Document :=
  { title := none,
    pages := [{ width := ExportNUp.mmToPt 100, height := ExportNUp.mmToPt 100, ops := [] }] }

/-- The document the back 0x0 plan exports to. -/
def emptyGridDocBack : ExportNUp.Document :=
  { title := none,
    pages := [{ width := ExportNUp.mmToPt 200, height := ExportNUp.mmToPt 150, ops := [] }] }

/-- A single sample trim rectangle for the cut-mark frame witness. -/
def sampleTrim : ExportNUp.PtRect := { x := 0, y := 0, width := 10, height := 10 }

/-- A sample mark configuration. -/
def sampleMark : ExportNUp.MarkConfig := { cutLenMm := 5, cutStrokePt := 1 }

/-!
Theorems.  The local attribute lets `decide` evaluate the rational
arithmetic of concrete configurations (the Batteries operations are
sealed by default; the kernel accepts either way).
-/

section Theorems

attribute [local semireducible] Rat.add Rat.sub Rat.mul Rat.inv Rat.ofScientific

theorem Layout.clamp0_nonneg (n : Layout.JNum) : 0 ≤ Layout.clamp0 n := by
  cases n with
  | fin q =>
      simp only [Layout.clamp0]
      split
      · exact le_of_lt (by assumption)
      · exact le_refl 0
  | inf => exact le_refl 0
  | ninf => exact le_refl 0
  | nan => exact le_refl 0

theorem axisCount_eq_specForm (pw g t : ℚ) (hpw : 0 ≤ pw) (hg : 0 ≤ g) (ht : 0 ≤ t) :
    (if t ≤ 0 then 0 else max 0 ⌊(pw + g) / (t + g)⌋) =
      (if 0 < t then ⌊(pw + g) / (t + g)⌋ else 0) := by
  rcases eq_or_lt_of_le ht with h | h
  · rw [if_pos (le_of_eq h.symm), if_neg (not_lt.mpr (le_of_eq h.symm))]
  · rw [if_neg (not_le.mpr h), if_pos h]
    exact max_eq_right (Int.floor_nonneg.mpr (div_nonneg (by linarith) (by linarith)))

theorem axisCount_zero_of_exceeds (pw g t : ℚ) (hpw : 0 ≤ pw) (hg : 0 ≤ g) (h : pw < t) :
    (if t ≤ 0 then 0 else max 0 ⌊(pw + g) / (t + g)⌋) = 0 := by
  have ht : 0 < t := lt_of_le_of_lt hpw h
  rw [if_neg (not_le.mpr ht)]
  have hlt : (pw + g) / (t + g) < 1 := (div_lt_one (by linarith)).mpr (by linarith)
  have hge : 0 ≤ (pw + g) / (t + g) := div_nonneg (by linarith) (by linarith)
  have hfl : ⌊(pw + g) / (t + g)⌋ = 0 := Int.floor_eq_zero_iff.mpr ⟨hge, hlt⟩
  simp [hfl]

theorem axisCount_nonneg (pw g t : ℚ) :
    0 ≤ (if t ≤ 0 then 0 else max 0 ⌊(pw + g) / (t + g)⌋) := by
  split
  · exact le_refl 0
  · exact le_max_left 0 _

/-- Claim C1: `computeLayout` computes cols and rows by flooring
`(printed + gap) / (footprint + gap)` on each axis (0 when the footprint is
not positive), items as rows*cols, and the printed dimensions as
`computePrintedArea` gives them; on Scenario A (210x297 paper, 5 mm margins,
6 mm cut marks, 57x92 item, zero gutters and gaps) it returns
printedW = 188, printedH = 275, cols = 3, rows = 2, items = 6. -/
theorem computeLayout_grid_formula :
    (∀ (paper : Layout.PaperConfig) (image : Layout.ImageConfig),
      (Layout.computeLayout paper image).printedW = (Layout.computePrintedArea paper).printedW ∧
      (Layout.computeLayout paper image).printedH = (Layout.computePrintedArea paper).printedH ∧
      (Layout.computeLayout paper image).cols =
        (if 0 < (Layout.computeLayout paper image).tagW then
          ⌊((Layout.computeLayout paper image).printedW + Layout.clamp0 paper.gap.horizontal) /
            ((Layout.computeLayout paper image).tagW + Layout.clamp0 paper.gap.horizontal)⌋
        else 0) ∧
      (Layout.computeLayout paper image).rows =
        (if 0 < (Layout.computeLayout paper image).tagH then
          ⌊((Layout.computeLayout paper image).printedH + Layout.clamp0 paper.gap.vertical) /
            ((Layout.computeLayout paper image).tagH + Layout.clamp0 paper.gap.vertical)⌋
        else 0) ∧
      (Layout.computeLayout paper image).items =
        (Layout.computeLayout paper image).rows * (Layout.computeLayout paper image).cols) ∧
    Layout.computeLayout scenarioAPaper scenarioAImage =
      { rows := 2, cols := 3, items := 6, tagW := 57, tagH := 92,
        printedW := 188, printedH := 275 } := by
  constructor
  · intro paper image
    refine ⟨rfl, rfl, ?_, ?_, rfl⟩
    · simp only [Layout.computeLayout, Layout.computePrintedArea]
      exact axisCount_eq_specForm _ _ _ (Layout.clamp0_nonneg _) (Layout.clamp0_nonneg _)
        (Layout.clamp0_nonneg _)
    · simp only [Layout.computeLayout, Layout.computePrintedArea]
      exact axisCount_eq_specForm _ _ _ (Layout.clamp0_nonneg _) (Layout.clamp0_nonneg _)
        (Layout.clamp0_nonneg _)
  · decide

/-- Claim C5: a zero footprint on an axis, or a footprint exceeding the
printed area on an axis, yields count 0 on that axis and hence zero items;
counts are never negative (and the function is total, so no exception). -/
theorem computeLayout_degenerate_graceful :
    ∀ (paper : Layout.PaperConfig) (image : Layout.ImageConfig),
      ((Layout.computeLayout paper image).tagW = 0 →
        (Layout.computeLayout paper image).cols = 0) ∧
      ((Layout.computeLayout paper image).printedW < (Layout.computeLayout paper image).tagW →
        (Layout.computeLayout paper image).cols = 0) ∧
      ((Layout.computeLayout paper image).tagH = 0 →
        (Layout.computeLayout paper image).rows = 0) ∧
      ((Layout.computeLayout paper image).printedH < (Layout.computeLayout paper image).tagH →
        (Layout.computeLayout paper image).rows = 0) ∧
      (((Layout.computeLayout paper image).cols = 0 ∨
          (Layout.computeLayout paper image).rows = 0) →
        (Layout.computeLayout paper image).items = 0) ∧
      0 ≤ (Layout.computeLayout paper image).cols ∧
      0 ≤ (Layout.computeLayout paper image).rows ∧
      0 ≤ (Layout.computeLayout paper image).items := by
  intro paper image
  simp only [Layout.computeLayout, Layout.computePrintedArea]
  refine ⟨?_, ?_, ?_, ?_, ?_, ?_, ?_, ?_⟩
  · intro h
    rw [h]
    simp
  · intro h
    exact axisCount_zero_of_exceeds _ _ _ (Layout.clamp0_nonneg _) (Layout.clamp0_nonneg _) h
  · intro h
    rw [h]
    simp
  · intro h
    exact axisCount_zero_of_exceeds _ _ _ (Layout.clamp0_nonneg _) (Layout.clamp0_nonneg _) h
  · intro h
    rcases h with h | h
    · exact mul_eq_zero.mpr (Or.inr h)
    · exact mul_eq_zero.mpr (Or.inl h)
  · exact axisCount_nonneg _ _ _
  · exact axisCount_nonneg _ _ _
  · exact mul_nonneg (axisCount_nonneg _ _ _) (axisCount_nonneg _ _ _)

/-- Witness for C5: a 0 mm wide, 1000 mm tall item on Scenario A paper gives
zero columns, zero rows and zero items. -/
theorem computeLayout_degenerate_graceful_witness :
    (Layout.computeLayout scenarioAPaper degenerateImage).cols = 0 ∧
    (Layout.computeLayout scenarioAPaper degenerateImage).rows = 0 ∧
    (Layout.computeLayout scenarioAPaper degenerateImage).items = 0 := by
  have h := computeLayout_degenerate_graceful scenarioAPaper degenerateImage
  exact ⟨h.1 (by decide), h.2.2.2.1 (by decide),
    h.2.2.2.2.1 (Or.inl (h.1 (by decide)))⟩

/-- Counterexample to C6 as stated: the raw paper size, paper margins and
item size are not individually clamped before use.  With a -100 mm left
margin the code's printed width grows to 293 mm, while the
clamp-every-input-first reading gives 193 mm. -/
theorem computeLayout_preclamp_counterexample :
    (Layout.computeLayout negMarginPaper scenarioAImage).printedW = 293 ∧
    (Layout.computeLayoutPreClamped negMarginPaper scenarioAImage).printedW = 193 ∧
    Layout.computeLayout negMarginPaper scenarioAImage ≠
      Layout.computeLayoutPreClamped negMarginPaper scenarioAImage := by
  refine ⟨by decide, by decide, by decide⟩

/-- Claim C6 (amended): whatever the inputs — negative or non-finite
included — `computeLayout` produces finite rational outputs with
non-negative rows, cols, items and printed dimensions; only the cut length,
the gaps, the gutters and the aggregated results are clamped. -/
theorem computeLayout_outputs_nonneg :
    ∀ (paper : Layout.PaperConfig) (image : Layout.ImageConfig),
      0 ≤ (Layout.computeLayout paper image).rows ∧
      0 ≤ (Layout.computeLayout paper image).cols ∧
      0 ≤ (Layout.computeLayout paper image).items ∧
      0 ≤ (Layout.computeLayout paper image).printedW ∧
      0 ≤ (Layout.computeLayout paper image).printedH := by
  intro paper image
  simp only [Layout.computeLayout, Layout.computePrintedArea]
  exact ⟨axisCount_nonneg _ _ _, axisCount_nonneg _ _ _,
    mul_nonneg (axisCount_nonneg _ _ _) (axisCount_nonneg _ _ _),
    Layout.clamp0_nonneg _, Layout.clamp0_nonneg _⟩

/-- Claim C7: shrinking the outer rectangle back by the same per-side bleed
reproduces the trim rectangle exactly, in particular within the 1e-6
tolerance. -/
theorem ptRectFromTrimAndBleed_roundTrip :
    ∀ (xTrim yTrim : ℚ) (trimPt : ExportNUp.SizeMm) (bleedPt : ExportNUp.BleedMm),
      ((ExportNUp.ptRectFromTrimAndBleed xTrim yTrim trimPt bleedPt).2.x + bleedPt.left =
        (ExportNUp.ptRectFromTrimAndBleed xTrim yTrim trimPt bleedPt).1.x) ∧
      ((ExportNUp.ptRectFromTrimAndBleed xTrim yTrim trimPt bleedPt).2.y + bleedPt.bottom =
        (ExportNUp.ptRectFromTrimAndBleed xTrim yTrim trimPt bleedPt).1.y) ∧
      ((ExportNUp.ptRectFromTrimAndBleed xTrim yTrim trimPt bleedPt).2.width -
          bleedPt.left - bleedPt.right =
        (ExportNUp.ptRectFromTrimAndBleed xTrim yTrim trimPt bleedPt).1.width) ∧
      ((ExportNUp.ptRectFromTrimAndBleed xTrim yTrim trimPt bleedPt).2.height -
          bleedPt.top - bleedPt.bottom =
        (ExportNUp.ptRectFromTrimAndBleed xTrim yTrim trimPt bleedPt).1.height) ∧
      |(ExportNUp.ptRectFromTrimAndBleed xTrim yTrim trimPt bleedPt).2.x + bleedPt.left - xTrim|
        < 1 / 1000000 ∧
      |(ExportNUp.ptRectFromTrimAndBleed xTrim yTrim trimPt bleedPt).2.y + bleedPt.bottom - yTrim|
        < 1 / 1000000 ∧
      |(ExportNUp.ptRectFromTrimAndBleed xTrim yTrim trimPt bleedPt).2.width -
          bleedPt.left - bleedPt.right - trimPt.width| < 1 / 1000000 ∧
      |(ExportNUp.ptRectFromTrimAndBleed xTrim yTrim trimPt bleedPt).2.height -
          bleedPt.top - bleedPt.bottom - trimPt.height| < 1 / 1000000 := by
  intro xTrim yTrim trimPt bleedPt
  simp only [ExportNUp.ptRectFromTrimAndBleed]
  refine ⟨by ring, by ring, by ring, by ring, ?_, ?_, ?_, ?_⟩ <;>
    exact lt_of_le_of_lt (le_of_eq (abs_eq_zero.mpr (by ring))) (by norm_num)

/-- Claim C10: the rotation handed to the page compositor is the cell-level
value when present, else the slot-level default, else 0, always normalized by
`clampRotation` to one of 0/90/180/270 (anything else, undefined included,
becomes 0); and the cell loop passes exactly this value on. -/
theorem effRotation_precedence_and_range :
    (∀ (r : ℚ) (defRot : Option ℚ),
      ExportNUp.effRotation (some r) defRot = ExportNUp.clampRotation (some r)) ∧
    (∀ d : ℚ, ExportNUp.effRotation none (some d) = ExportNUp.clampRotation (some d)) ∧
    ExportNUp.effRotation none none = 0 ∧
    (∀ (cellRot defRot : Option ℚ),
      ExportNUp.effRotation cellRot defRot = 0 ∨
      ExportNUp.effRotation cellRot defRot = 90 ∨
      ExportNUp.effRotation cellRot defRot = 180 ∨
      ExportNUp.effRotation cellRot defRot = 270) ∧
    (∀ q : ℚ, ¬(q = 90 ∨ q = 180 ∨ q = 270) → ExportNUp.clampRotation (some q) = 0) ∧
    ExportNUp.clampRotation none = 0 ∧
    (∀ (plan : ExportNUp.NUpPlan) (i : ℕ) (s : ExportNUp.SlotInput),
      plan.slots.getD i none = some s →
      ExportNUp.cellOps plan i =
        ExportNUp.placePdfPageNoScale s (ExportNUp.cellRect plan i).2
          (ExportNUp.effRotation s.rotateDeg plan.slot.defaultRotateDeg)) := by
  refine ⟨fun r defRot => rfl, fun d => rfl, by decide, ?_, ?_, rfl, ?_⟩
  · intro cellRot defRot
    simp only [ExportNUp.effRotation, ExportNUp.clampRotation]
    split_ifs with h
    · rcases h with h | h | h
      · exact Or.inr (Or.inl h)
      · exact Or.inr (Or.inr (Or.inl h))
      · exact Or.inr (Or.inr (Or.inr h))
    · exact Or.inl rfl
  · intro q hq
    simp only [ExportNUp.clampRotation]
    rw [if_neg hq]
  · intro plan i s h
    simp only [ExportNUp.cellOps, h]

/-- Witness for C10: an explicit 45-degree cell rotation is normalized to 0
even when the slot default is 90; an absent cell rotation falls back to the
slot default 180. -/
theorem effRotation_precedence_and_range_witness :
    ExportNUp.effRotation (some 45) (some 90) = 0 ∧
    ExportNUp.effRotation none (some 180) = 180 := by
  refine ⟨?_, ?_⟩
  · exact (effRotation_precedence_and_range.1 45 (some 90)).trans
      (effRotation_precedence_and_range.2.2.2.2.1 45 (by norm_num))
  · exact (effRotation_precedence_and_range.2.1 180).trans (by decide)

/-- Claim C4: `placePdfPageNoScale` emits exactly a translate-to-cell-center,
rotate, draw-at-native-size sequence: the drawn box has the source page's
native width and height (no scale factor anywhere), and under the installed
transform its center lands exactly on the outer rectangle's center for each
of the four rotations. -/
theorem placePdfPageNoScale_native_size_centered :
    ∀ (slot : ExportNUp.SlotInput) (outer : ExportNUp.PtRect) (rot : ℚ)
      (pg : ExportNUp.SrcPage),
      slot.pdfBytes.get? slot.pageIndex = some pg →
      (rot = 0 ∨ rot = 90 ∨ rot = 180 ∨ rot = 270) →
      ExportNUp.placePdfPageNoScale slot outer rot = .ok
        [ExportNUp.Op.pushGraphicsState,
         ExportNUp.Op.translate (outer.x + outer.width / 2) (outer.y + outer.height / 2),
         ExportNUp.Op.rotateRadiansOfDeg rot,
         ExportNUp.Op.drawPage pg.width pg.height (-(pg.width / 2)) (-(pg.height / 2)),
         ExportNUp.Op.popGraphicsState] ∧
      ExportNUp.placedCenter (outer.x + outer.width / 2) (outer.y + outer.height / 2) rot
        pg.width pg.height (-(pg.width / 2)) (-(pg.height / 2)) =
        (outer.x + outer.width / 2, outer.y + outer.height / 2) := by
  intro slot outer rot pg h _hrot
  constructor
  · simp only [ExportNUp.placePdfPageNoScale, h]
  · have hx : -(pg.width / 2) + pg.width / 2 = (0 : ℚ) := by ring
    have hy : -(pg.height / 2) + pg.height / 2 = (0 : ℚ) := by ring
    simp only [ExportNUp.placedCenter, ExportNUp.applyRot, hx, hy]
    split_ifs <;> simp

/-- Witness for C4: a 100x50 pt source page placed at 90 degrees into a
30x40 cell at (10, 20): drawn at native 100x50 and centered at (25, 40). -/
theorem placePdfPageNoScale_native_size_centered_witness :
    ExportNUp.placePdfPageNoScale sampleSlot sampleOuter 90 = .ok
      [ExportNUp.Op.pushGraphicsState,
       ExportNUp.Op.translate (sampleOuter.x + sampleOuter.width / 2)
         (sampleOuter.y + sampleOuter.height / 2),
       ExportNUp.Op.rotateRadiansOfDeg 90,
       ExportNUp.Op.drawPage (100 : ℚ) (50 : ℚ) (-((100 : ℚ) / 2)) (-((50 : ℚ) / 2)),
       ExportNUp.Op.popGraphicsState] ∧
    ExportNUp.placedCenter (sampleOuter.x + sampleOuter.width / 2)
      (sampleOuter.y + sampleOuter.height / 2) 90 100 50 (-((100 : ℚ) / 2)) (-((50 : ℚ) / 2)) =
      (sampleOuter.x + sampleOuter.width / 2, sampleOuter.y + sampleOuter.height / 2) :=
  placePdfPageNoScale_native_size_centered sampleSlot sampleOuter 90
    { width := 100, height := 50 } rfl (Or.inr (Or.inl rfl))

theorem drawSeg_mem_isPathOp (x1 y1 x2 y2 : ℚ) :
    ∀ op ∈ ExportNUp.drawSeg x1 y1 x2 y2, ExportNUp.Op.isPathOp op = true := by
  intro op hop
  simp only [ExportNUp.drawSeg, List.mem_cons, List.not_mem_nil, or_false] at hop
  rcases hop with h | h | h <;> subst h <;> rfl

/-- Claim C9: with zero trim rectangles the cut-mark renderer pushes no
operators at all; otherwise it pushes one graphics state, sets cap, join,
stroke width and the K100 stroking color once, draws only path segments,
and pops the state at the end. -/
theorem drawCutMarks_empty_and_state_frame :
    (∀ (mark : ExportNUp.MarkConfig) (pb : Option ExportNUp.BleedMm),
      ExportNUp.drawCutMarksFromTrimRects [] mark pb = []) ∧
    (∀ (trims : List ExportNUp.PtRect) (mark : ExportNUp.MarkConfig)
      (pb : Option ExportNUp.BleedMm), trims ≠ [] →
      ExportNUp.drawCutMarksFromTrimRects trims mark pb =
        ExportNUp.Op.pushGraphicsState ::
        ExportNUp.Op.setLineCap 0 ::
        ExportNUp.Op.setLineJoin 0 ::
        ExportNUp.Op.setLineWidth mark.cutStrokePt ::
        ExportNUp.Op.setStrokingColor { c := 0, m := 0, y := 0, k := 1 } ::
        (ExportNUp.tickOps trims mark pb ++ [ExportNUp.Op.popGraphicsState]) ∧
      (∀ op ∈ ExportNUp.tickOps trims mark pb, ExportNUp.Op.isPathOp op = true)) := by
  constructor
  · intro mark pb
    rfl
  · intro trims mark pb h
    constructor
    · have hne : trims.isEmpty = false := by
        cases trims with
        | nil => exact absurd rfl h
        | cons a l => rfl
      simp [ExportNUp.drawCutMarksFromTrimRects, hne]
    · intro op hop
      simp only [ExportNUp.tickOps, List.mem_append, List.mem_flatMap] at hop
      rcases hop with ⟨x, _, hx | hx⟩ | ⟨y, _, hy | hy⟩
      · exact drawSeg_mem_isPathOp _ _ _ _ op hx
      · exact drawSeg_mem_isPathOp _ _ _ _ op hx
      · exact drawSeg_mem_isPathOp _ _ _ _ op hy
      · exact drawSeg_mem_isPathOp _ _ _ _ op hy

/-- Witness for C9: the frame shape on one concrete trim rectangle. -/
theorem drawCutMarks_empty_and_state_frame_witness :
    ExportNUp.drawCutMarksFromTrimRects [sampleTrim] sampleMark none =
      ExportNUp.Op.pushGraphicsState ::
      ExportNUp.Op.setLineCap 0 ::
      ExportNUp.Op.setLineJoin 0 ::
      ExportNUp.Op.setLineWidth sampleMark.cutStrokePt ::
      ExportNUp.Op.setStrokingColor { c := 0, m := 0, y := 0, k := 1 } ::
      (ExportNUp.tickOps [sampleTrim] sampleMark none ++ [ExportNUp.Op.popGraphicsState]) :=
  (drawCutMarks_empty_and_state_frame.2 [sampleTrim] sampleMark none (by decide)).1

theorem runCells_errored_of_mem (plan : ExportNUp.NUpPlan) (idxs : List ℕ) (i : ℕ)
    (hi : i ∈ idxs) (he : ExportNUp.errored (ExportNUp.cellOps plan i) = true) :
    ExportNUp.errored (ExportNUp.runCells plan idxs) = true := by
  induction idxs with
  | nil => cases hi
  | cons j rest ih =>
    rw [ExportNUp.runCells]
    cases hj : ExportNUp.cellOps plan j with
    | error e => rfl
    | ok ops =>
      rcases List.mem_cons.mp hi with h | h
      · subst h
        rw [hj] at he
        exact absurd he (by simp [ExportNUp.errored])
      · cases hrest : ExportNUp.runCells plan rest with
        | error e2 => rfl
        | ok more =>
          have hc := ih h
          rw [hrest] at hc
          exact absurd hc (by simp [ExportNUp.errored])

/-- Claim C2: a plan whose slot count differs from rows*cols makes
`exportNUp` fail up front with the descriptive slot-count message (no
document is produced at all), and a slot whose requested source page does
not exist also makes the whole export fail; neither case is silently
corrected. -/
theorem exportNUp_validation_errors :
    (∀ plan : ExportNUp.NUpPlan,
      plan.slots.length ≠ plan.layout.rows * plan.layout.cols →
      ExportNUp.exportNUp plan = .error ("slots length (" ++ toString plan.slots.length ++
        ") must equal rows*cols (" ++ toString (plan.layout.rows * plan.layout.cols) ++ ").")) ∧
    (∀ (plan : ExportNUp.NUpPlan) (i : ℕ) (s : ExportNUp.SlotInput),
      plan.slots.get? i = some (some s) →
      s.pdfBytes.get? s.pageIndex = none →
      ExportNUp.errored (ExportNUp.exportNUp plan) = true) := by
  constructor
  · intro plan h
    simp only [ExportNUp.exportNUp]
    rw [if_pos h]
  · intro plan i s hget hpage
    by_cases hlen : plan.slots.length = plan.layout.rows * plan.layout.cols
    · have hi : i < plan.slots.length := by
        by_contra hge
        rw [List.get?_eq_none.mpr (le_of_not_lt hge)] at hget
        exact absurd hget (by simp)
      have hgetD : plan.slots.getD i none = some s := by
        rw [List.getD_eq_getElem?_getD, ← List.get?_eq_getElem?, hget]
        rfl
      have hcell : ExportNUp.errored (ExportNUp.cellOps plan i) = true := by
        simp only [ExportNUp.cellOps, hgetD, ExportNUp.placePdfPageNoScale, hpage]
        rfl
      have hrun := runCells_errored_of_mem plan
        (List.range (plan.layout.rows * plan.layout.cols)) i
        (List.mem_range.mpr (hlen ▸ hi)) hcell
      simp only [ExportNUp.exportNUp]
      rw [if_neg (fun hne => hne hlen)]
      cases hrc : ExportNUp.runCells plan (List.range (plan.layout.rows * plan.layout.cols)) with
      | error e => rfl
      | ok ops =>
        rw [hrc] at hrun
        exact absurd hrun (by simp [ExportNUp.errored])
    · simp only [ExportNUp.exportNUp]
      rw [if_pos hlen]
      rfl

/-- Witness for C2: the empty-slots 1x1 plan fails with the slot-count
message; the plan whose single slot requests page 0 of an empty source
fails as well. -/
theorem exportNUp_validation_errors_witness :
    ExportNUp.exportNUp mismatchPlan =
      .error ("slots length (" ++ toString mismatchPlan.slots.length ++
        ") must equal rows*cols (" ++
        toString (mismatchPlan.layout.rows * mismatchPlan.layout.cols) ++ ").") ∧
    ExportNUp.errored (ExportNUp.exportNUp badIndexPlan) = true :=
  ⟨exportNUp_validation_errors.1 mismatchPlan (by decide),
   exportNUp_validation_errors.2 badIndexPlan 0 emptySourceSlot (by decide) (by decide)⟩

/-- Claim C8: every successful `exportNUp` call yields a one-page document,
and merging a front and a back export concatenates all front pages before
all back pages, so the page count is the sum of the parts. -/
theorem exportNUp_single_page_and_merge_order :
    (∀ (plan : ExportNUp.NUpPlan) (doc : ExportNUp.Document),
      ExportNUp.exportNUp plan = .ok doc → doc.pages.length = 1) ∧
    (∀ (f b : ExportNUp.NUpPlan) (df db : ExportNUp.Document),
      ExportNUp.exportNUp f = .ok df → ExportNUp.exportNUp b = .ok db →
      ExportNUp.buildCurrentNUpBytes (some f) (some b) =
        .ok (some (ExportNUp.mergeDocs [df, db])) ∧
      (ExportNUp.mergeDocs [df, db]).pages = df.pages ++ db.pages ∧
      (ExportNUp.mergeDocs [df, db]).pages.length = df.pages.length + db.pages.length) := by
  constructor
  · intro plan doc h
    simp only [ExportNUp.exportNUp] at h
    split at h
    · exact absurd h (by simp)
    · split at h
      · exact absurd h (by simp)
      · rw [← Except.ok.inj h]
        rfl
  · intro f b df db hf hb
    refine ⟨?_, ?_, ?_⟩
    · simp only [ExportNUp.buildCurrentNUpBytes, hf, hb]
    · simp [ExportNUp.mergeDocs]
    · simp [ExportNUp.mergeDocs]

/-- Witness for C8: two empty-grid plans export to one page each and merge
into a two-page document, front page first. -/
theorem exportNUp_single_page_and_merge_order_witness :
    ExportNUp.exportNUp emptyGridPlanFront = .ok emptyGridDocFront ∧
    ExportNUp.buildCurrentNUpBytes (some emptyGridPlanFront) (some emptyGridPlanBack) =
      .ok (some (ExportNUp.mergeDocs [emptyGridDocFront, emptyGridDocBack])) ∧
    emptyGridDocFront.pages.length = 1 ∧
    (ExportNUp.mergeDocs [emptyGridDocFront, emptyGridDocBack]).pages.length =
      emptyGridDocFront.pages.length + emptyGridDocBack.pages.length := by
  have hf : ExportNUp.exportNUp emptyGridPlanFront = .ok emptyGridDocFront := rfl
  have hb : ExportNUp.exportNUp emptyGridPlanBack = .ok emptyGridDocBack := rfl
  have h2 := exportNUp_single_page_and_merge_order.2 emptyGridPlanFront emptyGridPlanBack
    emptyGridDocFront emptyGridDocBack hf hb
  exact ⟨hf, h2.1,
    exportNUp_single_page_and_merge_order.1 emptyGridPlanFront emptyGridDocFront hf, h2.2.2⟩

theorem flatMap_map_helper {α β γ : Type} (l : List α) (g : α → β) (f : β → List γ) :
    (l.map g).flatMap f = l.flatMap fun a => f (g a) := by
  induction l with
  | nil => rfl
  | cons a t ih => simp [ih]

theorem flatMap_congr_helper {α γ : Type} (l : List α) (f g : α → List γ)
    (h : ∀ a ∈ l, f a = g a) : l.flatMap f = l.flatMap g := by
  induction l with
  | nil => rfl
  | cons a t ih =>
    simp only [List.flatMap_cons]
    rw [h a (List.mem_cons_self a t), ih fun b hb => h b (List.mem_cons_of_mem a hb)]

/-- The number of distinct boundary values `base + k*W` and `base + k*W + W`
over cells indexed by `idx`, when `idx` covers `0..m-1`: exactly `m + 1`. -/
theorem boundaries_dedup_length (n m : ℕ) (idx : ℕ → ℕ) (base W : ℚ) (hW : 0 < W)
    (hm : 0 < m)
    (hidx : ∀ i, i < n → idx i < m)
    (hsurj : ∀ k, k < m → ∃ i, i < n ∧ idx i = k) :
    (((List.range n).flatMap fun i =>
      [base + idx i * W, base + idx i * W + W]).dedup).length = m + 1 := by
  have hinj : Set.InjOn (fun k : ℕ => base + k * W) ↑(Finset.range (m + 1)) := by
    intro a _ b _ hab
    simp only at hab
    have h2 : (a : ℚ) * W = b * W := by linarith
    have h3 : (a : ℚ) = b := mul_right_cancel₀ (ne_of_gt hW) h2
    exact_mod_cast h3
  have hset : ((List.range n).flatMap fun i =>
      [base + idx i * W, base + idx i * W + W]).toFinset
      = Finset.image (fun k : ℕ => base + k * W) (Finset.range (m + 1)) := by
    ext a
    simp only [List.mem_toFinset, List.mem_flatMap, List.mem_range, Finset.mem_image,
      Finset.mem_range, List.mem_cons, List.not_mem_nil, or_false]
    constructor
    · rintro ⟨i, hi, ha | ha⟩
      · exact ⟨idx i, Nat.lt_succ_of_lt (hidx i hi), ha.symm⟩
      · refine ⟨idx i + 1, Nat.succ_lt_succ (hidx i hi), ?_⟩
        rw [ha]
        push_cast
        ring
    · rintro ⟨k, hk, ha⟩
      by_cases hkm : k < m
      · obtain ⟨i, hi, hik⟩ := hsurj k hkm
        refine ⟨i, hi, Or.inl ?_⟩
        rw [hik, ha]
      · have hkm2 : k = m := Nat.eq_of_lt_succ_of_not_lt hk hkm
        obtain ⟨i, hi, hik⟩ := hsurj (m - 1) (Nat.sub_lt hm Nat.one_pos)
        refine ⟨i, hi, Or.inr ?_⟩
        rw [hik, ← ha, hkm2]
        have hm1 : ((m - 1 : ℕ) : ℚ) = (m : ℚ) - 1 := by
          push_cast [Nat.cast_sub (Nat.one_le_iff_ne_zero.mpr (Nat.pos_iff_ne_zero.mp hm))]
          ring
        rw [hm1]
        ring
  calc (((List.range n).flatMap fun i =>
          [base + idx i * W, base + idx i * W + W]).dedup).length
      = ((List.range n).flatMap fun i =>
          [base + idx i * W, base + idx i * W + W]).toFinset.card :=
        (List.card_toFinset _).symm
    _ = (Finset.image (fun k : ℕ => base + k * W) (Finset.range (m + 1))).card := by
        rw [hset]
    _ = (Finset.range (m + 1)).card := Finset.card_image_of_injOn hinj
    _ = m + 1 := Finset.card_range (m + 1)

theorem uniqueXs_grid_length (plan : ExportNUp.NUpPlan)
    (hr : 1 ≤ plan.layout.rows) (hc : 1 ≤ plan.layout.cols)
    (hbx : plan.slot.bleedMm.left + plan.slot.bleedMm.right = 0)
    (hw : 0 < plan.slot.trimSizeMm.width) :
    (ExportNUp.uniqueXs (ExportNUp.allTrimRects plan)).length = plan.layout.cols + 1 := by
  have hW : 0 < ExportNUp.mmToPt plan.slot.trimSizeMm.width := by
    have : (0 : ℚ) < ExportNUp.MM_TO_PT := by norm_num [ExportNUp.MM_TO_PT]
    exact mul_pos hw this
  have houter : ExportNUp.outerW plan = ExportNUp.mmToPt plan.slot.trimSizeMm.width := by
    have hz : ExportNUp.mmToPt plan.slot.bleedMm.left +
        ExportNUp.mmToPt plan.slot.bleedMm.right = 0 := by
      simp only [ExportNUp.mmToPt]
      rw [← add_mul, hbx, zero_mul]
    simp only [ExportNUp.outerW, ExportNUp.bleedPtOf]
    linarith
  rw [ExportNUp.uniqueXs, List.length_insertionSort]
  rw [ExportNUp.allTrimRects, flatMap_map_helper]
  have hlist := flatMap_congr_helper (List.range (plan.layout.rows * plan.layout.cols))
    (fun a => [(ExportNUp.cellRect plan a).1.x,
      (ExportNUp.cellRect plan a).1.x + (ExportNUp.cellRect plan a).1.width])
    (fun i => [ExportNUp.gridStartX plan + (ExportNUp.bleedPtOf plan).left +
        ((i % plan.layout.cols : ℕ) : ℚ) * ExportNUp.mmToPt plan.slot.trimSizeMm.width,
      ExportNUp.gridStartX plan + (ExportNUp.bleedPtOf plan).left +
        ((i % plan.layout.cols : ℕ) : ℚ) * ExportNUp.mmToPt plan.slot.trimSizeMm.width +
        ExportNUp.mmToPt plan.slot.trimSizeMm.width])
    (by
      intro i _
      simp only [ExportNUp.cellRect, ExportNUp.ptRectFromTrimAndBleed, ExportNUp.xTrimOf,
        List.cons.injEq, and_true]
      rw [houter]
      exact ⟨by ring, by ring⟩)
  rw [hlist]
  exact boundaries_dedup_length _ _ _ _ _ hW (lt_of_lt_of_le Nat.zero_lt_one hc)
    (fun i _ => Nat.mod_lt i (lt_of_lt_of_le Nat.zero_lt_one hc))
    (fun k hk => ⟨k,
      lt_of_lt_of_le hk (Nat.le_mul_of_pos_left _ (lt_of_lt_of_le Nat.zero_lt_one hr)),
      Nat.mod_eq_of_lt hk⟩)

theorem uniqueYs_grid_length (plan : ExportNUp.NUpPlan)
    (hr : 1 ≤ plan.layout.rows) (hc : 1 ≤ plan.layout.cols)
    (hby : plan.slot.bleedMm.top + plan.slot.bleedMm.bottom = 0)
    (hh : 0 < plan.slot.trimSizeMm.height) :
    (ExportNUp.uniqueYs (ExportNUp.allTrimRects plan)).length = plan.layout.rows + 1 := by
  have hcpos : 0 < plan.layout.cols := lt_of_lt_of_le Nat.zero_lt_one hc
  have hH : 0 < ExportNUp.mmToPt plan.slot.trimSizeMm.height := by
    have : (0 : ℚ) < ExportNUp.MM_TO_PT := by norm_num [ExportNUp.MM_TO_PT]
    exact mul_pos hh this
  have houter : ExportNUp.outerH plan = ExportNUp.mmToPt plan.slot.trimSizeMm.height := by
    have hz : ExportNUp.mmToPt plan.slot.bleedMm.top +
        ExportNUp.mmToPt plan.slot.bleedMm.bottom = 0 := by
      simp only [ExportNUp.mmToPt]
      rw [← add_mul, hby, zero_mul]
    simp only [ExportNUp.outerH, ExportNUp.bleedPtOf]
    linarith
  rw [ExportNUp.uniqueYs, List.length_insertionSort]
  rw [ExportNUp.allTrimRects, flatMap_map_helper]
  have hlist := flatMap_congr_helper (List.range (plan.layout.rows * plan.layout.cols))
    (fun a => [(ExportNUp.cellRect plan a).1.y,
      (ExportNUp.cellRect plan a).1.y + (ExportNUp.cellRect plan a).1.height])
    (fun i => [ExportNUp.gridStartY plan +
        ((i / plan.layout.cols : ℕ) : ℚ) * ExportNUp.mmToPt plan.slot.trimSizeMm.height,
      ExportNUp.gridStartY plan +
        ((i / plan.layout.cols : ℕ) : ℚ) * ExportNUp.mmToPt plan.slot.trimSizeMm.height +
        ExportNUp.mmToPt plan.slot.trimSizeMm.height])
    (by
      intro i _
      simp only [ExportNUp.cellRect, ExportNUp.ptRectFromTrimAndBleed, ExportNUp.yTrimOf,
        List.cons.injEq, and_true]
      rw [houter]
      exact ⟨by ring, by ring⟩)
  rw [hlist]
  exact boundaries_dedup_length _ _ _ _ _ hH (lt_of_lt_of_le Nat.zero_lt_one hr)
    (fun i hi => (Nat.div_lt_iff_lt_mul hcpos).mpr hi)
    (fun k hk => ⟨k * plan.layout.cols,
      (mul_lt_mul_right hcpos).mpr hk,
      Nat.mul_div_cancel k hcpos⟩)

/-- Claim C3 (amended): when the cells abut — the per-axis bleeds cancel, so
adjacent trim boundaries coincide — and the trim size is positive, the
cut-mark renderer's deduplicated boundary lists for an RxC grid have exactly
C+1 vertical and R+1 horizontal entries.  (With separating bleed, interior
boundaries are distinct per cell edge: see the counterexample.) -/
theorem cutMarks_unique_boundary_counts (plan : ExportNUp.NUpPlan)
    (hr : 1 ≤ plan.layout.rows) (hc : 1 ≤ plan.layout.cols)
    (hbx : plan.slot.bleedMm.left + plan.slot.bleedMm.right = 0)
    (hby : plan.slot.bleedMm.top + plan.slot.bleedMm.bottom = 0)
    (hw : 0 < plan.slot.trimSizeMm.width) (hh : 0 < plan.slot.trimSizeMm.height) :
    (ExportNUp.uniqueXs (ExportNUp.allTrimRects plan)).length = plan.layout.cols + 1 ∧
    (ExportNUp.uniqueYs (ExportNUp.allTrimRects plan)).length = plan.layout.rows + 1 :=
  ⟨uniqueXs_grid_length plan hr hc hbx hw, uniqueYs_grid_length plan hr hc hby hh⟩

/-- Witness for C3 (amended): the zero-bleed 2x3 grid has 4 unique vertical
and 3 unique horizontal boundary positions. -/
theorem cutMarks_unique_boundary_counts_witness :
    (ExportNUp.uniqueXs (ExportNUp.allTrimRects abutPlan)).length = abutPlan.layout.cols + 1 ∧
    (ExportNUp.uniqueYs (ExportNUp.allTrimRects abutPlan)).length = abutPlan.layout.rows + 1 :=
  cutMarks_unique_boundary_counts abutPlan (by decide) (by decide) (by decide) (by decide)
    (by decide) (by decide)

/-- Counterexample to C3 as stated: with 2 mm of bleed separating the cells,
the 1x2 grid's renderer computes 4 unique vertical boundary positions, not
cols + 1 = 3. -/
theorem cutMarks_dedup_counterexample :
    (ExportNUp.uniqueXs (ExportNUp.allTrimRects bleedPlan)).length = 4 ∧
    (ExportNUp.uniqueXs (ExportNUp.allTrimRects bleedPlan)).length ≠
      bleedPlan.layout.cols + 1 := by
  exact ⟨by decide, by decide⟩

end Theorems
